import Mathlib

/-!
# Verification of the Presentation API polyfill core (src/API/src/core.js)

This file gives a shallow embedding in Lean 4 of the connection-management
core of the Presentation API polyfill and proves (or refutes) the claims of
the natural-language specification against it.

Conventions of the embedding:
* JavaScript strings used as enums (channel / connection states, DOMException
  names) are embedded as Lean `String`s with the exact source spellings.
* JavaScript object identity is embedded with allocation counters: each
  `DataChannel` object is a heap cell indexed by a `Nat` id; mutable aliased
  objects live in an explicit heap (`chanStates`).
* A JavaScript promise that never settles is embedded as an explicit
  `hang`-style outcome; a synchronously thrown `TypeError` (e.g. calling a
  non-function) is embedded as an explicit outcome as well.
* `queueTask` deferrals are embedded by sequential macro-steps: each external
  event is processed to quiescence before the next one, which matches the
  single-threaded cooperative scheduling of the source.
-/

namespace PresPolyfill

/-- Shim for DOMExceptions, mirroring `_DOMException` in core.js
(fields `name` and `message`). -/
structure DOMException where
  name : String
  message : Option String
deriving Repr, DecidableEq

/-! ## DataChannel (core.js, `DataChannel`)

The base `DataChannel` has a `state` string, initially `"closed"`, a `send`
method that throws `InvalidStateError` whenever the state is not
`"connected"` (and otherwise does nothing in the base class: there is no
buffering of any kind), and a `close` method that is a no-op unless the
state is `"connected"`, in which case it moves the state to `"closed"` and
fires `onstatechange` once. -/

/-- A `DataChannel` object: `cid` is its JavaScript object identity
(allocation index), `state` its `state` property. -/
structure DataChannel where
  cid : Nat
  state : String
deriving Repr, DecidableEq

/-- Embeds `DataChannel.send` from core.js: throws `InvalidStateError` unless
`state === 'connected'`; the base class body does nothing else, so a
successful send returns no effect and an unchanged channel, and a failed
send queues nothing. -/
def DataChannel.send (c : DataChannel) (_message : String) :
    Except DOMException Unit :=
  if c.state ≠ "connected" then
    .error ⟨"InvalidStateError", none⟩
  else
    .ok ()

/-! ## Discovery aggregation and the start pipeline up to display selection

`PresentationRequest.start` (core.js lines 670-685) runs
`monitorAvailablePresentationDisplays`, then rejects with `NotFoundError`
when `listOfAvailablePresentationDisplays.length === 0`, and only then
reaches `requestUserToSelectPresentationDisplay`.

`monitorAvailablePresentationDisplays` (lines 791-823) maps
`getAvailableDisplays` over `registeredMechanisms`, waits for all, and
flattens with `lists.reduce(function (a, b) { return a.concat(b); })`.
JavaScript's `Array.prototype.reduce` **throws a TypeError when the array is
empty and no initial value is given**; that TypeError is raised inside the
`.then` callback, so the outer promise (whose `resolve` is only called at
the end of that callback) never settles.  We embed this with `Option`:
`none` is the never-settling case. -/

/-- A display as the discovery pipeline sees it: just a name
(`Display.name` in core.js). -/
structure Display where
  name : String
deriving Repr, DecidableEq

/-- A registered mechanism, reduced to the only operation the start
pipeline calls on it: the list its `getAvailableDisplays` promise resolves
to (per the mechanism contract this promise never rejects). -/
structure Mechanism where
  getAvailableDisplays : List Display
deriving Repr, DecidableEq

/-- JavaScript `lists.reduce(function (a, b) { return a.concat(b); })`
without an initial value: on an empty array it throws
`TypeError: Reduce of empty array with no initial value` (embedded as
`none`); otherwise it left-folds concatenation starting from the first
element. -/
def jsReduceConcat (lists : List (List Display)) : Option (List Display) :=
  match lists with
  | [] => none
  | l :: ls => some (ls.foldl (fun a b => a ++ b) l)

/-- Embeds `monitorAvailablePresentationDisplays`: fan out `getAvailableDisplays`
to every registered mechanism, flatten with `jsReduceConcat`.  Result
`none` means the returned promise never settles (the flattening threw). -/
def monitorAvailablePresentationDisplays (mechanisms : List Mechanism) :
    Option (List Display) :=
  jsReduceConcat (mechanisms.map (fun m => m.getAvailableDisplays))

/-- Outcome of `start()` observed up to (and including) the user-selection
step. -/
inductive StartOutcome where
  /-- the promise chain never settles (discovery hung on an internal throw) -/
  | hang : StartOutcome
  /-- the start promise rejected with the given exception before selection -/
  | rejected : DOMException → StartOutcome
  /-- the pipeline reached `requestUserToSelectPresentationDisplay` with the
  given candidate list -/
  | selectionReached : List Display → StartOutcome
deriving Repr, DecidableEq

/-- Embeds `PresentationRequest.start` up to the selection step (core.js 670-678):
run discovery, reject with `NotFoundError` on an empty candidate list, and
otherwise hand the candidate list to the selection step. -/
def startUntilSelection (mechanisms : List Mechanism) : StartOutcome :=
  match monitorAvailablePresentationDisplays mechanisms with
  | none => .hang
  | some displays =>
      if displays.length = 0 then .rejected ⟨"NotFoundError", none⟩
      else .selectionReached displays

/-! ## PresentationConnection and its remote peer (core.js 381-526)

A `PresentationConnection` wraps a remote peer (`RemoteController` or
`Display`), holds a private `channel` variable and a private
`pendingPromise` inside the `createDataChannel` closure, and exposes
`send`, `close` and `terminate`.

Channel objects are mutable and aliased between the connection and the
peer (the peer may cache the very object the connection holds), so channel
`state` fields live in an explicit heap `chanStates : Nat → String`
indexed by object identity, and both sides hold `Nat` ids.

Two peer behaviours occur in the repository:
* the caching peer: `RemoteController.createDataChannel` in core.js
  (lines 224-232), likewise the Physical Web remote endpoints —
  `if (!channel) { channel = new DataChannel(); channel.state =
  'connected'; } resolve(channel)`: it allocates one connected channel and
  afterwards resolves every call with that same object, whatever state the
  object has reached;
* the fresh peer: the Cast remote endpoints (cast.js lines 98-101) —
  every call allocates `new DataChannel()` with state `'connected'`.
Both peers' `terminate` does nothing to the state modelled here
(`Display.terminate` is an empty function). -/

/-- The remote peer of a connection, reduced to its channel-creation
behaviour. -/
inductive Peer where
  /-- A `RemoteController`-style peer caching its one allocated channel -/
  | caching : Option Nat → Peer
  /-- Cast-style peer allocating a new connected channel on every call -/
  | fresh : Peer
deriving Repr, DecidableEq

/-- Point update of the channel-state heap. -/
def updateHeap (heap : Nat → String) (c : Nat) (s : String) : Nat → String :=
  fun x => if x = c then s else heap x

/-- Embeds `remotePeer.createDataChannel()`: returns the id of the channel the
peer's promise resolves with, together with the updated peer, heap and
allocation counter. -/
def Peer.createDataChannel :
    Peer → (Nat → String) → Nat → Nat × Peer × (Nat → String) × Nat
  | .caching (some c), heap, n => (c, .caching (some c), heap, n)
  | .caching none, heap, n =>
      (n, .caching (some n), updateHeap heap n "connected", n + 1)
  | .fresh, heap, n => (n, .fresh, updateHeap heap n "connected", n + 1)

/-- The state of one `PresentationConnection` together with the channel
heap and its remote peer. -/
structure World where
  /-- state of every channel object, by object id -/
  chanStates : Nat → String
  /-- next unallocated channel object id -/
  nextId : Nat
  /-- the wrapped remote peer -/
  peer : Peer
  /-- Field `this.state` of the connection -/
  connState : String
  /-- the private `channel` variable (`none` = `null`) -/
  connChannel : Option Nat
  /-- whether `pendingPromise` is non-null -/
  pending : Bool
  /-- number of times the connection's `onstatechange` listener slot was
  invoked (counting as if a listener is attached) -/
  notified : Nat

/-- A fresh connection as built by `new PresentationConnection(remotePeer)`
(state `'closed'`, no channel, no pending creation). -/
def initWorld (p : Peer) : World :=
  { chanStates := fun _ => "closed"
    nextId := 0
    peer := p
    connState := "closed"
    connChannel := none
    pending := false
    notified := 0 }

/-- The `channel.onstatechange` handler installed by
`createDataChannel` (core.js 449-460): if the channel state differs from
the connection state, adopt it and notify; if the channel state is not
`'connected'`, drop the reference to the channel. -/
def World.channelHandler (w : World) : World :=
  match w.connChannel with
  | none => w
  | some c =>
      let s := w.chanStates c
      let w1 := if s ≠ w.connState then
          { w with connState := s, notified := w.notified + 1 }
        else w
      if s ≠ "connected" then { w1 with connChannel := none } else w1

/-- Embeds `channel.close()` on the channel held by the connection
(`DataChannel.close`, core.js 180-188): no-op unless the channel state is
`'connected'`; otherwise set it to `'closed'` and fire the channel's
`onstatechange`, which is the handler above. -/
def World.closeHeldChannel (w : World) : World :=
  match w.connChannel with
  | none => w
  | some c =>
      if w.chanStates c ≠ "connected" then w
      else
        World.channelHandler
          { w with chanStates := updateHeap w.chanStates c "closed" }

/-- Result of one call to `PresentationConnection.createDataChannel`. -/
inductive CreateDCResult where
  /-- Slot `pendingPromise` was non-null and the code executes
  `pendingPromise()`, calling a Promise object as a function: a synchronous
  `TypeError` is thrown -/
  | typeError : CreateDCResult
  /-- Variable `channel` was non-null: a promise already resolved with that channel
  is returned, nothing else happens -/
  | resolvedExisting : Nat → CreateDCResult
  /-- a new creation was started (`pendingPromise` set); its completion is
  the separate step `resolvePendingCreation` -/
  | creationStarted : CreateDCResult
deriving Repr, DecidableEq

/-- The synchronous part of `PresentationConnection.createDataChannel`
(core.js 435-475). -/
def World.createDataChannel (w : World) : CreateDCResult × World :=
  if w.pending then (.typeError, w)
  else match w.connChannel with
  | some c => (.resolvedExisting c, w)
  | none => (.creationStarted, { w with pending := true })

/-- Completion of a pending creation: the `.then` callback of
`remotePeer.createDataChannel()` (core.js 446-472).  Clears
`pendingPromise`, stores the channel, installs the handlers, then adopts
the channel's state (with one notification) when it differs from the
connection's. -/
def World.resolvePendingCreation (w : World) : World :=
  if w.pending then
    match Peer.createDataChannel w.peer w.chanStates w.nextId with
    | (c, peer', heap', n') =>
        let w1 : World :=
          { w with
            pending := false
            connChannel := some c
            peer := peer'
            chanStates := heap'
            nextId := n' }
        if w1.connState ≠ heap' c then
          { w1 with connState := heap' c, notified := w1.notified + 1 }
        else w1
  else w

/-- Embeds `PresentationConnection.send` (core.js 484-492): `InvalidStateError`
when there is no channel, `InvalidStateError` when the connection state is
not `'connected'`, otherwise delegate to the channel's `send`. -/
def World.send (w : World) (m : String) : Except DOMException Unit :=
  match w.connChannel with
  | none => .error ⟨"InvalidStateError",
      some "Presentation connection not available, cannot send message"⟩
  | some c =>
      if w.connState ≠ "connected" then
        .error ⟨"InvalidStateError",
          some "Presentation connection is closed, cannot send message"⟩
      else
        DataChannel.send ⟨c, w.chanStates c⟩ m

/-- Embeds `PresentationConnection.close` (core.js 500-506): return when there is
no channel, otherwise close it.  (The subsequent `that.channel = null`
writes a public property distinct from the private `channel` variable and
has no effect on the state modelled here.) -/
def World.connClose (w : World) : World :=
  w.closeHeldChannel

/-- Embeds `PresentationConnection.terminate` (core.js 514-525): close any held
channel, ask the peer to terminate (a no-op for the modelled peers), and
force the state to `'terminated'` with one notification unless it already
is `'terminated'`. -/
def World.terminate (w : World) : World :=
  let w1 := w.closeHeldChannel
  if w1.connState ≠ "terminated" then
    { w1 with connState := "terminated", notified := w1.notified + 1 }
  else w1

/-- A mechanism-driven state change of the held channel: the mechanism
sets `channel.state` to `s` and fires the channel's `onstatechange` (as
e.g. the Cast session update listener does), which runs the handler the
connection installed. -/
def World.forceChannelState (w : World) (s : String) : World :=
  match w.connChannel with
  | none => w
  | some c =>
      World.channelHandler
        { w with chanStates := updateHeap w.chanStates c s }

/-! ## The session registry shared by all PresentationRequest instances

`PresentationRequest` (core.js 600-962) is built by an IIFE whose closure
holds `setOfPresentations`, `setOfAvailabilityObjects`,
`listOfAvailablePresentationDisplays` and
`getNewValidPresentationConnectionIdentifier` **once**, outside the inner
constructor, so every `PresentationRequest` instance created from it reads
and writes the same registries.  The embedding therefore threads a single
`SessionState` through the operations of all instances; an instance
contributes only its `url` (the sole per-instance datum these operations
read) plus an identity `rid` used to talk about distinct instances. -/

/-- One entry of `setOfPresentations`
(`{url:String, id:String, connection:PresentationConnection}`); the
connection object is represented by its identity `connRef`. -/
structure PresentationEntry where
  url : String
  pid : Nat
  connRef : Nat
deriving Repr, DecidableEq

/-- A `PresentationRequest` instance: its object identity and the `url` it
was constructed with. -/
structure PRequestInst where
  rid : Nat
  url : String
deriving Repr, DecidableEq

/-- The closure-held registry state relevant to connection creation:
`setOfPresentations` plus an allocation counter giving connection objects
their identities. -/
structure SessionState where
  setOfPresentations : List PresentationEntry
  nextConnRef : Nat
deriving Repr, DecidableEq

/-- Registry state at load time: both sets empty. -/
def initialSessionState : SessionState := ⟨[], 0⟩

/-- Embeds `getNewValidPresentationConnectionIdentifier` (core.js 637-639):
`return setOfPresentations.length;`. -/
def getNewValidPresentationConnectionIdentifier (s : SessionState) : Nat :=
  s.setOfPresentations.length

/-- Embeds `createPresentationConnection` (core.js 901-911), run by instance
`req` after a successful navigation: allocate a connection object, give it
the next identifier, set its state to `'closed'`, and push
`{url, id, connection}` onto the shared set.  Returns the new connection's
object identity, its id, and the new registry state. -/
def createPresentationConnection (req : PRequestInst) (s : SessionState) :
    Nat × Nat × SessionState :=
  let cid := getNewValidPresentationConnectionIdentifier s
  let ref := s.nextConnRef
  (ref, cid,
    ⟨s.setOfPresentations ++ [⟨req.url, cid, ref⟩], ref + 1⟩)

/-- Registry state after the connection-creation steps of a sequence of
successful `start()` calls, one per listed instance (in order). -/
def runStarts : List PRequestInst → SessionState → SessionState
  | [], s => s
  | r :: rs, s => runStarts rs (createPresentationConnection r s).2.2

/-- The connection ids assigned by a sequence of successful `start()`
calls, in order. -/
def idsOfStarts : List PRequestInst → SessionState → List Nat
  | [], _ => []
  | r :: rs, s =>
      (createPresentationConnection r s).2.1 ::
        idsOfStarts rs (createPresentationConnection r s).2.2

/-- Derived closed form of the entries `runStarts` appends (proved below,
not part of the embedding): starting from `len` existing entries and
allocation counter `ref`, the k-th start by instance `rₖ` contributes
`⟨rₖ.url, len + k, ref + k⟩`. -/
def entriesSpec : List PRequestInst → Nat → Nat → List PresentationEntry
  | [], _, _ => []
  | r :: rs, len, ref => ⟨r.url, len, ref⟩ :: entriesSpec rs (len + 1) (ref + 1)

/-- The `forEach` scan of `PresentationRequest.reconnect` (core.js
712-720): walk `setOfPresentations` in insertion order, skipping the body
once a connection was found, and keep the connection of the first entry
whose `url` and `id` both match. -/
def reconnectScan (sop : List PresentationEntry) (url : String)
    (presentationId : Nat) : Option Nat :=
  sop.foldl (fun acc p =>
    match acc with
    | some c => some c
    | none =>
        if p.url = url ∧ p.pid = presentationId then some p.connRef
        else none) none

/-- How the promise returned by `reconnect` settles. -/
inductive ReconnectOutcome where
  /-- resolved with the connection object of the given identity -/
  | resolved : Nat → ReconnectOutcome
  /-- rejected with the given exception -/
  | rejected : DOMException → ReconnectOutcome
deriving Repr, DecidableEq

/-- Side effects a session-engine operation can perform. -/
inductive SessionEffect where
  | discovery : SessionEffect
  | navigation : SessionEffect
  | establish : SessionEffect
deriving Repr, DecidableEq

/-- Embeds `PresentationRequest.reconnect` (core.js 708-730) as run by a request
with the given `url`: scan the shared set; on a hit, resolve with the
stored connection object (the very object, no new allocation — the
registry state is not touched) and call `establishPresentationConnection`
on it; on a miss, reject with `NotFoundError`.  The effect list records
everything else the task does: no discovery, no navigation. -/
def reconnect (sop : List PresentationEntry) (url : String)
    (presentationId : Nat) : ReconnectOutcome × List SessionEffect :=
  match reconnectScan sop url presentationId with
  | some connRef => (.resolved connRef, [.establish])
  | none => (.rejected ⟨"NotFoundError", none⟩, [])

/-! ## The connection-available notification of the start pipeline

`establishPresentationConnection` (core.js 926-958) queues a task that
fires a `PresentationConnectionAvailableEvent` at
`thisPresentationRequest.onconnection` — but the handler property the
constructor defines and documents (core.js 645-653) is named
`onconnectionavailable`.  We embed the request object's handler slots as a
string-keyed property list and the JavaScript property read (an absent
property reads as `undefined`, which is falsy) explicitly. -/

/-- The handler-property slots a `PresentationRequest` object carries: the
constructor defines exactly one, `onconnectionavailable` (core.js 653);
the boolean says whether the application has assigned a (truthy) handler
to it. -/
def presentationRequestHandlerSlots (onconnectionavailableSet : Bool) :
    List (String × Bool) :=
  [("onconnectionavailable", onconnectionavailableSet)]

/-- JavaScript truthiness test of a property read: a key that was never
assigned reads as `undefined`, which is falsy. -/
def readsTruthyProp (slots : List (String × Bool)) (key : String) : Bool :=
  match slots.lookup key with
  | some b => b
  | none => false

/-- Whether the task queued by `establishPresentationConnection` invokes a
handler on the request object: core.js 933 guards the call with
`if (thisPresentationRequest.onconnection)`. -/
def establishNotifiesOwner (onconnectionavailableSet : Bool) : Bool :=
  readsTruthyProp (presentationRequestHandlerSlots onconnectionavailableSet)
    "onconnection"

/-! ## Receiver-side monitoring (core.js 979-1130)

`PresentationReceiver.getConnection` returns a memoised `pendingPromise`;
when none exists it creates one whose queued task either resolves at once
with `setOfIncomingPresentations[0].connection` or, when no incoming
presentation exists yet, parks its `resolve` in
`pendingResolveFunction`.  `monitorIncomingPresentationConnections`
(1092-1119), on each incoming controller, establishes the connection's
channel, appends it to `setOfIncomingPresentations`, notifies, and — when
a resolve function is parked — fires it with the new connection and clears
both `pendingResolveFunction` and `pendingPromise`.

The embedding processes external events sequentially (each queued task
runs to completion before the next external event, matching the
single-threaded scheduler): an event is either a `getConnection()` call or
the arrival of an incoming connection.  Incoming connection objects are
identified by arrival order: the k-th arrival is object `k`. -/

/-- An external event at the receiver. -/
inductive REvent where
  /-- a call to `PresentationReceiver.getConnection()` -/
  | call : REvent
  /-- a mechanism reports an incoming controller and its connection's
  channel establishment completes -/
  | arrival : REvent
deriving Repr, DecidableEq

/-- Receiver-engine state.  `callResults` has one slot per
`getConnection()` call made so far, holding the connection identity the
call's promise (eventually) resolved with, `none` while unresolved. -/
structure RecvState where
  setOfIncomingPresentations : List Nat
  nextConnRef : Nat
  /-- Whether `pendingPromise !== null` -/
  pendingAlive : Bool
  /-- the value `pendingPromise` has resolved with, if it has -/
  pendingValue : Option Nat
  /-- Whether `pendingResolveFunction !== null` -/
  parked : Bool
  /-- how many times a resolve function was parked in
  `pendingResolveFunction` -/
  parkCount : Nat
  callResults : List (Option Nat)
deriving Repr, DecidableEq

/-- Receiver state at load time. -/
def initRecvState : RecvState :=
  { setOfIncomingPresentations := []
    nextConnRef := 0
    pendingAlive := false
    pendingValue := none
    parked := false
    parkCount := 0
    callResults := [] }

/-- One `getConnection()` call (core.js 1008-1025): return the memoised
promise when one exists (the caller observes whatever it resolves to);
otherwise create one and run its queued task — park the resolve function
when `setOfIncomingPresentations` is empty, else resolve at once with the
first stored connection. -/
def stepCall (s : RecvState) : RecvState :=
  if s.pendingAlive then
    { s with callResults := s.callResults ++ [s.pendingValue] }
  else
    match s.setOfIncomingPresentations with
    | [] =>
        { s with
          pendingAlive := true
          pendingValue := none
          parked := true
          parkCount := s.parkCount + 1
          callResults := s.callResults ++ [none] }
    | first :: _ =>
        { s with
          pendingAlive := true
          pendingValue := some first
          callResults := s.callResults ++ [some first] }

/-- One incoming connection (core.js 1097-1116): allocate the connection,
append it to `setOfIncomingPresentations`, and when a resolve function is
parked, fire it with this connection (resolving every call waiting on the
pending promise) and clear both the function and the promise. -/
def stepArrival (s : RecvState) : RecvState :=
  let ref := s.nextConnRef
  let s1 : RecvState :=
    { s with
      setOfIncomingPresentations := s.setOfIncomingPresentations ++ [ref]
      nextConnRef := ref + 1 }
  if s1.parked then
    { s1 with
      parked := false
      pendingAlive := false
      pendingValue := none
      callResults := s1.callResults.map (fun r => some (r.getD ref)) }
  else s1

/-- Process one event. -/
def recvStep (s : RecvState) : REvent → RecvState
  | .call => stepCall s
  | .arrival => stepArrival s

/-- Receiver state after a whole event trace. -/
def recvRun (t : List REvent) : RecvState :=
  t.foldl recvStep initRecvState

/-- Number of `getConnection()` calls in a trace. -/
def countCalls : List REvent → Nat
  | [] => 0
  | .call :: rest => countCalls rest + 1
  | .arrival :: rest => countCalls rest

/-- Number of incoming-connection arrivals in a trace. -/
def countArrivals : List REvent → Nat
  | [] => 0
  | .call :: rest => countArrivals rest
  | .arrival :: rest => countArrivals rest + 1

/-- Whether some `getConnection()` call happens before the first arrival
(equivalently: the trace starts with a call). -/
def hasCallBeforeFirstArrival : List REvent → Bool
  | [] => false
  | .call :: _ => true
  | .arrival :: _ => false

/-- Whether some `getConnection()` call happens after the first
arrival. -/
def hasCallAfterFirstArrival : List REvent → Bool
  | [] => false
  | .call :: rest => hasCallAfterFirstArrival rest
  | .arrival :: rest => countCalls rest != 0

/-- Derived closed form of `recvRun` (proved below, not part of the
embedding). -/
def recvClosedForm (t : List REvent) : RecvState :=
  { setOfIncomingPresentations := List.range (countArrivals t)
    nextConnRef := countArrivals t
    pendingAlive :=
      if countArrivals t = 0 then countCalls t != 0
      else hasCallAfterFirstArrival t
    pendingValue :=
      if countArrivals t ≠ 0 ∧ hasCallAfterFirstArrival t then some 0
      else none
    parked := (countArrivals t == 0) && (countCalls t != 0)
    parkCount := if hasCallBeforeFirstArrival t then 1 else 0
    callResults :=
      List.replicate (countCalls t)
        (if countArrivals t ≠ 0 then some 0 else none) }

end PresPolyfill

/-! ## Theorems for C9 and C1 -/

namespace PresPolyfill

/-- C9: for every DataChannel and every message, `send` fails with a
DOMException named `InvalidStateError` unless the channel's state is
`'connected'` at the time of the call; when it fails, the message is
dropped through the error path (the result carries no queued effect, and
the channel is left untouched since `send` performs no mutation). -/
theorem dataChannel_send_requires_connected (c : DataChannel) (m : String)
    (h : c.state ≠ "connected") :
    DataChannel.send c m = .error ⟨"InvalidStateError", none⟩ := by
  simp [DataChannel.send, h]

/-- Witness for `dataChannel_send_requires_connected` at the freshly
constructed channel (state `"closed"`). -/
theorem dataChannel_send_requires_connected_witness :
    DataChannel.send ⟨0, "closed"⟩ "hello" =
      .error ⟨"InvalidStateError", none⟩ :=
  dataChannel_send_requires_connected ⟨0, "closed"⟩ "hello" (by decide)

/-- C1, behaviour at the failing input: with **zero registered mechanisms**,
`start()` does not reject with `NotFoundError` — the discovery step's
`lists.reduce(concat)` throws a TypeError on the empty array, the outer
discovery promise never settles, and `start()` hangs.  With at least one
mechanism, all of which resolve to empty lists, the claimed behaviour does
hold: `start()` rejects with `NotFoundError` and the selection step is
never reached. -/
theorem start_noCandidates_notFound :
    startUntilSelection [] = .hang ∧
    (∀ mechanisms : List Mechanism, mechanisms ≠ [] →
      (∀ m ∈ mechanisms, m.getAvailableDisplays = []) →
      startUntilSelection mechanisms = .rejected ⟨"NotFoundError", none⟩) := by
  constructor
  · rfl
  · intro mechanisms hne hempty
    match mechanisms, hne with
    | m :: ms, _ =>
      have hm : m.getAvailableDisplays = [] := hempty m (by simp)
      have hall : ms.map (fun m => m.getAvailableDisplays) =
          List.replicate ms.length [] := by
        rw [List.eq_replicate_iff]
        refine ⟨by simp, ?_⟩
        intro b hb
        simp only [List.mem_map] at hb
        obtain ⟨x, hx, hxb⟩ := hb
        rw [← hxb]
        exact hempty x (by simp [hx])
      have hfold : ∀ (n : Nat),
          (List.replicate n ([] : List Display)).foldl
            (fun a b => a ++ b) [] = [] := by
        intro n
        induction n with
        | zero => rfl
        | succ k ih => simpa [List.replicate_succ] using ih
      simp [startUntilSelection, monitorAvailablePresentationDisplays,
        jsReduceConcat, hm, hall, hfold]

/-- Witness for `start_noCandidates_notFound`: one registered mechanism
resolving to the empty display list makes `start()` reject with
`NotFoundError`. -/
theorem start_noCandidates_notFound_witness :
    startUntilSelection [⟨[]⟩] = .rejected ⟨"NotFoundError", none⟩ :=
  (start_noCandidates_notFound).2 [⟨[]⟩] (by decide) (by
    intro m hm
    simp only [List.mem_singleton] at hm
    rw [hm])

end PresPolyfill

namespace PresPolyfill

/-! ## Helper lemmas about the connection world -/

/-- The handler `channelHandler` leaves no connected-state mismatch behind and drops
the channel reference whenever the channel is not connected. -/
theorem channelHandler_connChannel_of_ne (w : World) (c : Nat)
    (h : w.connChannel = some c) (hs : w.chanStates c ≠ "connected") :
    (w.channelHandler).connChannel = none := by
  unfold World.channelHandler
  rw [h]
  by_cases hd : w.chanStates c ≠ w.connState <;> simp [hd, hs]

/-- After `closeHeldChannel`, the connection either holds no channel or
holds one whose state is not `'connected'`. -/
theorem closeHeldChannel_channel_spec (w : World) :
    (w.closeHeldChannel).connChannel = none ∨
    ∃ c, (w.closeHeldChannel).connChannel = some c ∧
      (w.closeHeldChannel).chanStates c ≠ "connected" := by
  unfold World.closeHeldChannel
  split
  · next heq => exact Or.inl heq
  · next c heq =>
      split
      · next hne => exact Or.inr ⟨c, heq, hne⟩
      · next hco =>
          refine Or.inl (channelHandler_connChannel_of_ne _ c heq ?_)
          simp [updateHeap]

end PresPolyfill

namespace PresPolyfill

/-- Closing is a no-op: `closeHeldChannel` is a no-op when the connection holds no channel or
holds a channel that is not connected. -/
theorem closeHeldChannel_noop (w : World)
    (h : w.connChannel = none ∨
      ∃ c, w.connChannel = some c ∧ w.chanStates c ≠ "connected") :
    w.closeHeldChannel = w := by
  unfold World.closeHeldChannel
  split
  · rfl
  · next c heq =>
      rcases h with h0 | ⟨c', h1, h2⟩
      · rw [h0] at heq
        cases heq
      · rw [h1] at heq
        injection heq with hcc
        subst hcc
        rw [if_pos h2]

/-- Calling `terminate` always leaves the connection state `'terminated'`. -/
theorem terminate_connState (w : World) :
    (w.terminate).connState = "terminated" := by
  simp only [World.terminate]
  split
  · rfl
  · next h => exact not_not.mp h

/-- After `terminate`, the connection holds no channel or a channel that
is not connected. -/
theorem terminate_channel_spec (w : World) :
    (w.terminate).connChannel = none ∨
    ∃ c, (w.terminate).connChannel = some c ∧
      (w.terminate).chanStates c ≠ "connected" := by
  simp only [World.terminate]
  rcases closeHeldChannel_channel_spec w with h | ⟨c, h1, h2⟩
  · split <;> exact Or.inl h
  · split <;> exact Or.inr ⟨c, h1, h2⟩

/-- Calling `terminate` is a no-op on a world already terminated whose held
channel, if any, is not connected. -/
theorem terminate_noop (w : World) (hs : w.connState = "terminated")
    (h : w.connChannel = none ∨
      ∃ c, w.connChannel = some c ∧ w.chanStates c ≠ "connected") :
    w.terminate = w := by
  have h1 := closeHeldChannel_noop w h
  simp only [World.terminate, h1, hs]
  simp

end PresPolyfill

namespace PresPolyfill

/-- C3 (amended): once `terminate()` has been called on a connection, its
state is `'terminated'`; any further `send()` fails with a DOMException
named `InvalidStateError`; and neither `close()` nor a repeated
`terminate()` changes anything (no state transition, no further
notification).  A later `createDataChannel()` is excluded: it can still
re-establish a channel and move the state away from `'terminated'` (see
the counterexample theorem for the claim as originally stated). -/
theorem terminate_terminal_for_send_close (w : World) :
    ((w.terminate).connState = "terminated") ∧
    (∀ m, ∃ msg, (w.terminate).send m =
      .error ⟨"InvalidStateError", msg⟩) ∧
    ((w.terminate).connClose = w.terminate) ∧
    ((w.terminate).terminate = w.terminate) := by
  refine ⟨terminate_connState w, ?_, ?_, ?_⟩
  · intro m
    rcases terminate_channel_spec w with h | ⟨c, h1, _⟩
    · exact ⟨some "Presentation connection not available, cannot send message",
        by simp [World.send, h]⟩
    · refine ⟨some "Presentation connection is closed, cannot send message", ?_⟩
      have hst : (w.terminate).connState ≠ "connected" := by
        rw [terminate_connState w]
        decide
      simp [World.send, h1, hst]
  · exact closeHeldChannel_noop _ (terminate_channel_spec w)
  · exact terminate_noop _ (terminate_connState w) (terminate_channel_spec w)

/-- C3, counterexample to the claim as stated: the state does NOT stay
`'terminated'` forever.  Take a fresh connection to a Cast-style display,
call `terminate()` (state becomes `'terminated'`), then call
`createDataChannel()`; when the peer's promise resolves with a connected
channel, the connection adopts the channel's state: its state becomes
`'connected'` again. -/
theorem terminate_not_terminal_cex :
    (((initWorld .fresh).terminate).connState = "terminated") ∧
    ((((((initWorld .fresh).terminate).createDataChannel).2).resolvePendingCreation).connState
      = "connected") := by
  exact ⟨rfl, rfl⟩

/-- C2: evaluation of `createDataChannel` around an in-flight creation.
The first call starts a creation; a second call made while it is still in
flight does not coalesce onto the pending promise — the code executes
`pendingPromise()`, calling the stored Promise object as a function, which
throws a synchronous TypeError.  (The second half of the claim does hold:
once the creation has resolved, a further call returns the established
channel with no second creation and no state change at all.) -/
theorem createDataChannel_inflight_typeError :
    ((((initWorld (.caching none)).createDataChannel)).1 = .creationStarted) ∧
    (((((initWorld (.caching none)).createDataChannel).2).createDataChannel).1
      = .typeError) ∧
    ((((((initWorld (.caching none)).createDataChannel).2).resolvePendingCreation).createDataChannel).1
      = .resolvedExisting 0) ∧
    ((((((initWorld (.caching none)).createDataChannel).2).resolvePendingCreation).createDataChannel).2
      = ((((initWorld (.caching none)).createDataChannel).2).resolvePendingCreation)) := by
  exact ⟨rfl, rfl, rfl, rfl⟩

/-- C5, counterexample to "the next `createDataChannel()` call builds a
fresh, distinct channel instance": with a `RemoteController`-style caching
peer (the base class of core.js and the Physical Web endpoints), after the
established channel (object 0) is forced to `'closed'` the connection
does discard its reference — but the next `createDataChannel()` call gets
the peer's cached object back: the very same instance 0, not a distinct
one. -/
theorem channel_not_recreated_cex :
    (let w1 := (((initWorld (.caching none)).createDataChannel).2).resolvePendingCreation
     let w2 := w1.forceChannelState "closed"
     let w3 := ((w2.createDataChannel).2).resolvePendingCreation
     w1.connChannel = some 0 ∧ w1.connState = "connected" ∧
     w2.connChannel = none ∧ w2.connState = "closed" ∧
     w3.connChannel = some 0 ∧ w3.chanStates 0 = "closed") := by
  exact ⟨rfl, rfl, rfl, rfl, rfl, rfl⟩

/-- C4: the connection-available notification of the start pipeline never
reaches the request's `onconnectionavailable` handler.  The queued task of
`establishPresentationConnection` guards the call with
`if (thisPresentationRequest.onconnection)` (core.js 933), a property that
is never defined — the constructor defines and documents
`onconnectionavailable` (core.js 653) — so the read yields `undefined`
and the handler is not invoked even when one is set (`true` below). -/
theorem connectionavailable_handler_never_invoked :
    establishNotifiesOwner true = false ∧
    ∀ b : Bool, establishNotifiesOwner b = false := by
  exact ⟨rfl, fun b => rfl⟩

end PresPolyfill

namespace PresPolyfill

/-- Characterisation of a forced channel state change when the new state
differs from the connection's: the connection adopts it with one
notification, and drops the channel reference unless the new state is
`'connected'`. -/
theorem forceChannelState_eq (w : World) (c : Nat) (s : String)
    (hc : w.connChannel = some c) (hs : s ≠ w.connState) :
    w.forceChannelState s =
      (if s ≠ "connected" then
        { w with
          chanStates := updateHeap w.chanStates c s
          connState := s
          notified := w.notified + 1
          connChannel := none }
      else
        { w with
          chanStates := updateHeap w.chanStates c s
          connState := s
          notified := w.notified + 1 }) := by
  unfold World.forceChannelState
  rw [hc]
  unfold World.channelHandler
  simp only [updateHeap, if_pos rfl]
  simp [hs]

end PresPolyfill

namespace PresPolyfill

/-- On a world with no held channel, no in-flight creation and a
fresh-allocating peer, `createDataChannel` followed by the resolution of
the peer's promise installs the newly allocated channel object
(id `nextId`). -/
theorem createResolve_fresh (v : World) (hpeer : v.peer = .fresh)
    (hpend : v.pending = false) (hch : v.connChannel = none) :
    (((v.createDataChannel).2).resolvePendingCreation).connChannel
      = some v.nextId := by
  have h1 : (v.createDataChannel).2 = { v with pending := true } := by
    unfold World.createDataChannel
    rw [hpend, hch]
    simp
  rw [h1]
  simp only [World.resolvePendingCreation]
  simp only [hpeer, Peer.createDataChannel]
  split
  · split <;> rfl
  · next h => exact absurd trivial h

/-- C5 (amended): whenever the held channel's state changes to a value
`s` that differs from the connection's current state, the connection
adopts `s` and notifies its `onstatechange` listener once; whenever `s`
is anything other than `'connected'`, the connection also discards its
reference to the channel.  The next `createDataChannel()` call then
re-invokes the remote peer's channel creation; the resulting channel is a
fresh, distinct instance whenever the peer allocates fresh channels (the
Cast-style peer) — for the caching `RemoteController`-style peer it is
the same cached instance, see the counterexample theorem. -/
theorem channel_reconciliation (w : World) (c : Nat) (s : String)
    (hc : w.connChannel = some c) (hs : s ≠ w.connState) :
    ((w.forceChannelState s).connState = s ∧
     (w.forceChannelState s).notified = w.notified + 1) ∧
    (s ≠ "connected" →
      (w.forceChannelState s).connChannel = none ∧
      (w.peer = .fresh → w.pending = false → c < w.nextId →
        ((((w.forceChannelState s).createDataChannel).2).resolvePendingCreation).connChannel
          = some w.nextId ∧ w.nextId ≠ c)) := by
  rw [forceChannelState_eq w c s hc hs]
  by_cases hcon : s ≠ "connected"
  · rw [if_pos hcon]
    refine ⟨⟨rfl, rfl⟩, fun _ => ⟨rfl, ?_⟩⟩
    intro hpeer hpend hn
    exact ⟨createResolve_fresh _ hpeer hpend rfl, (Nat.ne_of_lt hn).symm⟩
  · rw [if_neg hcon]
    exact ⟨⟨rfl, rfl⟩, fun hcon2 => absurd hcon2 hcon⟩

/-- Witness for `channel_reconciliation`: a connection to a Cast-style
(fresh-allocating) display with an established channel (object 0), whose
channel is then forced to `'closed'`. -/
theorem channel_reconciliation_witness :
    (let wf := (((initWorld .fresh).createDataChannel).2).resolvePendingCreation
     ((wf.forceChannelState "closed").connState = "closed" ∧
      (wf.forceChannelState "closed").notified = wf.notified + 1) ∧
     ("closed" ≠ "connected" →
       (wf.forceChannelState "closed").connChannel = none ∧
       (wf.peer = .fresh → wf.pending = false → 0 < wf.nextId →
         ((((wf.forceChannelState "closed").createDataChannel).2).resolvePendingCreation).connChannel
           = some wf.nextId ∧ wf.nextId ≠ 0))) :=
  channel_reconciliation
    ((((initWorld .fresh).createDataChannel).2).resolvePendingCreation)
    0 "closed" rfl (by decide)

end PresPolyfill

namespace PresPolyfill

/-! ## Reconnection lookup lemmas -/

/-- The reconnect scan keeps the first hit: once the accumulator holds a
connection, later entries are skipped. -/
theorem reconnectScan_foldl_some (rest : List PresentationEntry)
    (u : String) (k : Nat) (c : Nat) :
    rest.foldl (fun acc p =>
      match acc with
      | some c => some c
      | none =>
          if p.url = u ∧ p.pid = k then some p.connRef
          else none) (some c) = some c := by
  induction rest with
  | nil => rfl
  | cons q qs ih =>
      simp only [List.foldl_cons]
      exact ih

/-- Unfolding of the reconnect scan on a cons cell. -/
theorem reconnectScan_cons (p : PresentationEntry)
    (rest : List PresentationEntry) (u : String) (k : Nat) :
    reconnectScan (p :: rest) u k =
      if p.url = u ∧ p.pid = k then some p.connRef
      else reconnectScan rest u k := by
  by_cases h : p.url = u ∧ p.pid = k
  · rw [if_pos h]
    unfold reconnectScan
    simp only [List.foldl_cons, h, if_pos]
    exact reconnectScan_foldl_some rest u k p.connRef
  · rw [if_neg h]
    unfold reconnectScan
    simp only [List.foldl_cons, h, if_neg, if_false]

/-- A scan over a set with no matching entry comes back empty-handed. -/
theorem reconnectScan_eq_none (sop : List PresentationEntry) (u : String)
    (k : Nat) (h : ∀ p ∈ sop, ¬(p.url = u ∧ p.pid = k)) :
    reconnectScan sop u k = none := by
  induction sop with
  | nil => rfl
  | cons q rest ih =>
      rw [reconnectScan_cons, if_neg (h q (by simp))]
      exact ih (fun p hp => h p (by simp [hp]))

/-- A scan over a set containing exactly one matching entry finds that
entry's connection. -/
theorem reconnectScan_eq_some (u : String) (k : Nat)
    (p : PresentationEntry) :
    ∀ sop : List PresentationEntry, p ∈ sop → (p.url = u ∧ p.pid = k) →
    (∀ q ∈ sop, (q.url = u ∧ q.pid = k) → q = p) →
    reconnectScan sop u k = some p.connRef := by
  intro sop
  induction sop with
  | nil =>
      intro hp _ _
      cases hp
  | cons q rest ih =>
      intro hp hmatch huniq
      rw [reconnectScan_cons]
      by_cases hq : q.url = u ∧ q.pid = k
      · rw [if_pos hq, huniq q (by simp) hq]
      · rw [if_neg hq]
        have hp' : p ∈ rest := by
          rcases List.mem_cons.mp hp with h | h
          · exact absurd (h ▸ hmatch) hq
          · exact h
        exact ih hp' hmatch (fun r hr hrm => huniq r (by simp [hr]) hrm)

/-- C6: `reconnect(presentationId)` on a request with url `u` resolves
with the original connection object stored for `(u, presentationId)` —
identity-equal, no new connection is created — and re-triggers
establishment on it, performing neither discovery nor navigation; when no
entry matches, it rejects with a DOMException named `NotFoundError` and
performs no effect at all. -/
theorem reconnect_found_or_notFound (sop : List PresentationEntry)
    (u : String) (k : Nat) :
    ((∀ p ∈ sop, ¬(p.url = u ∧ p.pid = k)) →
      reconnect sop u k = (.rejected ⟨"NotFoundError", none⟩, [])) ∧
    (∀ p ∈ sop, (p.url = u ∧ p.pid = k) →
      (∀ q ∈ sop, (q.url = u ∧ q.pid = k) → q = p) →
      reconnect sop u k = (.resolved p.connRef, [.establish])) := by
  constructor
  · intro h
    unfold reconnect
    rw [reconnectScan_eq_none sop u k h]
  · intro p hp hm hu
    unfold reconnect
    rw [reconnectScan_eq_some u k p sop hp hm hu]

/-- Witness for `reconnect_found_or_notFound`: a set holding connection 7
under `("u", 0)`; looking up id 1 fails with `NotFoundError`, looking up
id 0 resolves with connection 7 and re-establishes. -/
theorem reconnect_found_or_notFound_witness :
    reconnect [⟨"u", 0, 7⟩] "u" 1 = (.rejected ⟨"NotFoundError", none⟩, []) ∧
    reconnect [⟨"u", 0, 7⟩] "u" 0 = (.resolved 7, [.establish]) :=
  ⟨(reconnect_found_or_notFound [⟨"u", 0, 7⟩] "u" 1).1 (by decide),
   (reconnect_found_or_notFound [⟨"u", 0, 7⟩] "u" 0).2 ⟨"u", 0, 7⟩
     (by decide) (by decide) (by decide)⟩

end PresPolyfill

namespace PresPolyfill

/-! ## Connection-id assignment lemmas -/

/-- Ids assigned by successive successful starts: starting from a registry
with `len` entries, a run of `n` starts hands out `len, len+1, …,
len+n-1`. -/
theorem idsOfStarts_eq_range' :
    ∀ (reqs : List PRequestInst) (s : SessionState),
    idsOfStarts reqs s =
      List.range' s.setOfPresentations.length reqs.length := by
  intro reqs
  induction reqs with
  | nil =>
      intro s
      rfl
  | cons r rs ih =>
      intro s
      simp only [idsOfStarts, createPresentationConnection,
        getNewValidPresentationConnectionIdentifier]
      rw [ih]
      simp [List.range'_succ]

/-- C7: the connection-creation steps of N successful `start()` calls in
one session (any mix of request instances) assign the ids `0, 1, …, N-1`:
pairwise distinct and strictly increasing; in particular the first start
gets id 0 and the second id 1. -/
theorem connection_ids_unique (reqs : List PRequestInst) :
    idsOfStarts reqs initialSessionState = List.range reqs.length ∧
    (idsOfStarts reqs initialSessionState).Nodup ∧
    List.Sorted (· < ·) (idsOfStarts reqs initialSessionState) ∧
    (∀ r1 r2 : PRequestInst, idsOfStarts [r1, r2] initialSessionState = [0, 1]) := by
  have h : idsOfStarts reqs initialSessionState = List.range reqs.length := by
    rw [idsOfStarts_eq_range']
    rw [List.range_eq_range']
    rfl
  refine ⟨h, ?_, ?_, ?_⟩
  · rw [h]
    exact List.nodup_range reqs.length
  · rw [h]
    exact List.sorted_lt_range reqs.length
  · intro r1 r2
    rfl

/-! ## The registry is one shared closure: cross-instance lemmas -/

/-- Closed form of the entries appended by a run of successful starts. -/
theorem runStarts_entries :
    ∀ (reqs : List PRequestInst) (es : List PresentationEntry) (n : Nat),
    (runStarts reqs ⟨es, n⟩).setOfPresentations =
      es ++ entriesSpec reqs es.length n := by
  intro reqs
  induction reqs with
  | nil =>
      intro es n
      simp [runStarts, entriesSpec]
  | cons r rs ih =>
      intro es n
      simp only [runStarts, createPresentationConnection,
        getNewValidPresentationConnectionIdentifier]
      rw [ih]
      simp [entriesSpec]

/-- Scanning the entries of a run for the id handed out at position `i`
finds exactly the connection created there, provided the lookup url
matches that start's url. -/
theorem reconnectScan_entriesSpec (u : String) :
    ∀ (reqs : List PRequestInst) (len ref i : Nat) (ri : PRequestInst),
    reqs.get? i = some ri → ri.url = u →
    reconnectScan (entriesSpec reqs len ref) u (len + i) = some (ref + i) := by
  intro reqs
  induction reqs with
  | nil =>
      intro len ref i ri hget _
      cases hget
  | cons r rs ih =>
      intro len ref i ri hget hurl
      cases i with
      | zero =>
          rw [List.get?_cons_zero] at hget
          injection hget with hri
          subst hri
          simp only [entriesSpec, reconnectScan_cons]
          rw [if_pos ⟨hurl, by omega⟩]
          simp
      | succ j =>
          rw [List.get?_cons_succ] at hget
          simp only [entriesSpec, reconnectScan_cons]
          rw [if_neg (by omega)]
          have := ih (len + 1) (ref + 1) j ri hget hurl
          rw [show len + (j + 1) = (len + 1) + j by omega]
          rw [this]
          congr 1
          omega

/-- C10: the registries live in one closure shared by every
`PresentationRequest` instance, so (a) ids from successful starts are
pairwise distinct across *all* instances, and (b) `reconnect(i)` called
through any instance `reqB` resolves with the connection created through
whichever instance performed the i-th start — also a *different* instance
— as long as the urls coincide. -/
theorem shared_registry_cross_instance (reqs : List PRequestInst) (i : Nat)
    (ri : PRequestInst) (hget : reqs.get? i = some ri)
    (reqB : PRequestInst) (hurl : reqB.url = ri.url) :
    (reconnect ((runStarts reqs initialSessionState).setOfPresentations)
        reqB.url i).1 = .resolved i ∧
    (idsOfStarts reqs initialSessionState).Nodup := by
  constructor
  · have hent : (runStarts reqs initialSessionState).setOfPresentations =
        entriesSpec reqs 0 0 := by
      have := runStarts_entries reqs [] 0
      simpa using this
    have hscan := reconnectScan_entriesSpec reqB.url reqs 0 0 i ri hget hurl.symm
    simp only [Nat.zero_add] at hscan
    unfold reconnect
    rw [hent, hscan]
  · rw [idsOfStarts_eq_range']
    exact List.nodup_range' _ _

/-- Witness for `shared_registry_cross_instance`: instance 0 (url "u")
performs the first start, instance 1 (url "u") the second; a third
instance (rid 5, also url "u") reconnects to id 1 and gets back the
connection created through instance 1. -/
theorem shared_registry_cross_instance_witness :
    (reconnect ((runStarts [⟨0, "u"⟩, ⟨1, "u"⟩] initialSessionState).setOfPresentations)
        (PRequestInst.mk 5 "u").url 1).1 = .resolved 1 ∧
    (idsOfStarts [⟨0, "u"⟩, ⟨1, "u"⟩] initialSessionState).Nodup :=
  shared_registry_cross_instance [⟨0, "u"⟩, ⟨1, "u"⟩] 1 ⟨1, "u"⟩ (by decide)
    ⟨5, "u"⟩ (by decide)

end PresPolyfill

namespace PresPolyfill

/-! ## Receiver-engine lemmas -/

/-- The count `countCalls` distributes over append. -/
theorem countCalls_append (a b : List REvent) :
    countCalls (a ++ b) = countCalls a + countCalls b := by
  induction a with
  | nil => simp [countCalls]
  | cons e rest ih =>
      cases e <;> (simp [countCalls, ih]; try omega)

/-- The count `countArrivals` distributes over append. -/
theorem countArrivals_append (a b : List REvent) :
    countArrivals (a ++ b) = countArrivals a + countArrivals b := by
  induction a with
  | nil => simp [countArrivals]
  | cons e rest ih =>
      cases e <;> (simp [countArrivals, ih]; try omega)

/-- A trace with no calls and no arrivals is empty. -/
theorem trace_nil_of_no_events (t : List REvent)
    (hc : countCalls t = 0) (ha : countArrivals t = 0) : t = [] := by
  cases t with
  | nil => rfl
  | cons e rest =>
      cases e
      · simp [countCalls] at hc
      · simp [countArrivals] at ha

/-- Appending an event to a nonempty trace does not change whether a call
precedes the first arrival. -/
theorem hasCallBefore_append (x : REvent) (rest : List REvent) (e : REvent) :
    hasCallBeforeFirstArrival ((x :: rest) ++ [e]) =
      hasCallBeforeFirstArrival (x :: rest) := by
  cases x <;> rfl

/-- A trace with no arrivals has no call after the first arrival. -/
theorem hasCallAfter_of_no_arrivals (t : List REvent)
    (ha : countArrivals t = 0) : hasCallAfterFirstArrival t = false := by
  induction t with
  | nil => rfl
  | cons e rest ih =>
      cases e
      · exact ih (by simpa [countArrivals] using ha)
      · simp [countArrivals] at ha

/-- Effect of appending a call on `hasCallAfterFirstArrival`. -/
theorem hasCallAfter_append_call (t : List REvent) :
    hasCallAfterFirstArrival (t ++ [.call]) =
      (hasCallAfterFirstArrival t || (countArrivals t != 0)) := by
  induction t with
  | nil => rfl
  | cons e rest ih =>
      cases e
      · simpa [hasCallAfterFirstArrival, countArrivals] using ih
      · simp [hasCallAfterFirstArrival, countArrivals, countCalls_append,
          countCalls]

/-- Effect of appending an arrival on `hasCallAfterFirstArrival`. -/
theorem hasCallAfter_append_arrival (t : List REvent) :
    hasCallAfterFirstArrival (t ++ [.arrival]) =
      hasCallAfterFirstArrival t := by
  induction t with
  | nil => rfl
  | cons e rest ih =>
      cases e
      · simpa [hasCallAfterFirstArrival] using ih
      · simp [hasCallAfterFirstArrival, countCalls_append, countCalls]

/-- The run `recvRun` unrolls from the right. -/
theorem recvRun_append_singleton (t : List REvent) (e : REvent) :
    recvRun (t ++ [e]) = recvStep (recvRun t) e := by
  unfold recvRun
  rw [List.foldl_append]
  rfl

end PresPolyfill

namespace PresPolyfill

/-- Appending to a nonempty trace does not change whether a call precedes
the first arrival. -/
theorem hasCallBefore_append_ne (t : List REvent) (e : REvent)
    (h : t ≠ []) :
    hasCallBeforeFirstArrival (t ++ [e]) = hasCallBeforeFirstArrival t := by
  cases t with
  | nil => exact absurd rfl h
  | cons x rest => exact hasCallBefore_append x rest e

/-- The receiver engine's run equals its closed form. -/
theorem recvRun_eq_closedForm (t : List REvent) :
    recvRun t = recvClosedForm t := by
  induction t using List.reverseRecOn with
  | nil => rfl
  | append_singleton t e ih =>
      rw [recvRun_append_singleton, ih]
      have hcalls := countCalls_append t [e]
      have harr := countArrivals_append t [e]
      cases e
      · -- e = .call
        by_cases ha : countArrivals t = 0
        · by_cases hc : countCalls t = 0
          · have ht : t = [] := trace_nil_of_no_events t hc ha
            subst ht
            rfl
          · have hne : t ≠ [] := by
              intro h
              subst h
              exact hc rfl
            simp [recvStep, stepCall, recvClosedForm, ha, hc,
              countCalls_append, countArrivals_append, countCalls,
              countArrivals, hasCallBefore_append_ne t .call hne,
              hasCallAfter_append_call, hasCallAfter_of_no_arrivals t ha,
              List.replicate_succ']
        · have hne : t ≠ [] := by
            intro h
            subst h
            exact ha rfl
          rcases Nat.exists_eq_succ_of_ne_zero ha with ⟨a, hA⟩
          by_cases hpost : hasCallAfterFirstArrival t = true
          · simp [recvStep, stepCall, recvClosedForm, ha, hpost,
              countCalls_append, countArrivals_append, countCalls,
              countArrivals, hasCallBefore_append_ne t .call hne,
              hasCallAfter_append_call, List.replicate_succ']
          · have hpost' : hasCallAfterFirstArrival t = false :=
              Bool.eq_false_iff.mpr hpost
            simp [recvStep, stepCall, recvClosedForm, ha, hpost',
              countCalls_append, countArrivals_append, countCalls,
              countArrivals, hasCallBefore_append_ne t .call hne,
              hasCallAfter_append_call, List.replicate_succ', hA,
              List.range_succ_eq_map]
      · -- e = .arrival
        by_cases ha : countArrivals t = 0
        · by_cases hc : countCalls t = 0
          · have ht : t = [] := trace_nil_of_no_events t hc ha
            subst ht
            rfl
          · have hne : t ≠ [] := by
              intro h
              subst h
              exact hc rfl
            simp [recvStep, stepArrival, recvClosedForm, ha, hc,
              countCalls_append, countArrivals_append, countCalls,
              countArrivals, hasCallBefore_append_ne t .arrival hne,
              hasCallAfter_append_arrival, hasCallAfter_of_no_arrivals t ha,
              List.map_replicate, List.range_succ]
        · have hne : t ≠ [] := by
            intro h
            subst h
            exact ha rfl
          simp [recvStep, stepArrival, recvClosedForm, ha,
            countCalls_append, countArrivals_append, countCalls,
            countArrivals, hasCallBefore_append_ne t .arrival hne,
            hasCallAfter_append_arrival, List.range_succ]

end PresPolyfill

namespace PresPolyfill

/-- C8: over any interleaving of `getConnection()` calls and incoming
connections, (1) the incoming list records arrivals in order (the k-th
arrival is connection k); (2) every call's promise resolves with
connection 0 — the first incoming connection ever — as soon as any
arrival exists, and stays unresolved while none does; (3) exactly one
resolve function is ever parked, namely when some call precedes the first
arrival; (4) the next arrival resolves all parked calls with itself (the
first connection, 0); (5) a call made after at least one arrival resolves
immediately (within its own step) with the earliest connection. -/
theorem getConnection_first_ever (t : List REvent) :
    (recvRun t).setOfIncomingPresentations = List.range (countArrivals t) ∧
    (recvRun t).callResults =
      List.replicate (countCalls t)
        (if countArrivals t ≠ 0 then some 0 else none) ∧
    (recvRun t).parkCount =
      (if hasCallBeforeFirstArrival t then 1 else 0) ∧
    (recvRun (t ++ [.arrival])).callResults =
      List.replicate (countCalls t) (some 0) ∧
    (recvRun (t ++ [.call])).callResults.getLast? =
      some (if countArrivals t ≠ 0 then some 0 else none) := by
  refine ⟨?_, ?_, ?_, ?_, ?_⟩
  · rw [recvRun_eq_closedForm]
    rfl
  · rw [recvRun_eq_closedForm]
    rfl
  · rw [recvRun_eq_closedForm]
    rfl
  · rw [recvRun_eq_closedForm]
    simp [recvClosedForm, countCalls_append, countArrivals_append,
      countCalls, countArrivals]
  · rw [recvRun_eq_closedForm]
    simp only [recvClosedForm, countCalls_append, countArrivals_append,
      countCalls, countArrivals, Nat.add_zero]
    rw [List.replicate_succ', List.getLast?_concat]

end PresPolyfill
